import Mathlib

/-!
Verification development for the trippai trip-planning pipeline.

The Python sources are shallowly embedded: machine floats become exact
rationals (`ℚ`) or reals (`ℝ`) where transcendental functions appear,
Python ints become `ℤ`, fallible code returns `Option`/`Except`, and the
pandas data frames become lists of typed records.  Each definition is a
direct translation of the correspondingly named function of the source.
-/

namespace Trippai

/-- Record `CityStop` from `multi_city_planner.py`: one city of a multi-city trip.
Coordinates are kept as exact rationals; day counts are Python ints. -/
structure CityStop where
  city : String
  lat : ℚ
  lon : ℚ
  min_days : ℤ
  max_days : ℤ
  preferred_days : ℤ
deriving DecidableEq

/-- Constructor `CityStop.__init__`: the field assignment
`self.preferred_days = preferred_days or min_days` uses Python truthiness,
so both a missing argument and an explicit `0` fall back to `min_days`.
The coordinate lookup is bypassed by supplying `lat`/`lon` directly. -/
def mkCityStop (city : String) (lat lon : ℚ) (min_days max_days : ℤ)
    (preferred_days : Option ℤ) : CityStop :=
  { city := city
    lat := lat
    lon := lon
    min_days := min_days
    max_days := max_days
    preferred_days :=
      match preferred_days with
      | none => min_days
      | some p => if p = 0 then min_days else p }

/-- The rounding loop at the end of `_allocate_days` (lines 307-311):
one single pass over the cities in input order; a city strictly below its
`max_days` receives one extra day while `leftover > 0`.  The input pairs
are (current allocation, `max_days`) in input order. -/
def leftoverPass : List (ℤ × ℤ) → ℤ → List ℤ
  | [], _ => []
  | (a, m) :: rest, leftover =>
    if a < m ∧ 0 < leftover then (a + 1) :: leftoverPass rest (leftover - 1)
    else a :: leftoverPass rest leftover

/-- Embeds `MultiCityPlanner._allocate_days`.  The Python dict keyed by city name
is modelled positionally (one entry per stop, in input order), which
coincides with the dict semantics whenever city names are distinct.
`int(remaining_days * preference_ratio)` truncates toward zero, which is
`Int.tdiv` on the exact value `remaining_days * preferred_days / total_preferred`.
Returns `none` exactly when the Python code raises `ZeroDivisionError`
(`total_preferred == 0` with a nonempty city list and days remaining). -/
def allocate_days (cities : List CityStop) (total_days : ℤ) : Option (List ℤ) :=
  let allocation := cities.map (fun c => c.min_days)
  let remaining_days := total_days - allocation.sum
  if remaining_days ≤ 0 then some allocation
  else
    let total_preferred := (cities.map (fun c => c.preferred_days)).sum
    if total_preferred = 0 then
      -- the division `city.preferred_days / total_preferred` runs once per
      -- city, so an empty city list raises nothing and returns as-is
      if cities.isEmpty then some allocation else none
    else
      let alloc1 := cities.map (fun c =>
        let extra_days := Int.tdiv (remaining_days * c.preferred_days) total_preferred
        let max_extra := c.max_days - c.min_days
        c.min_days + min extra_days max_extra)
      let days_allocated := alloc1.sum
      if days_allocated < total_days then
        some (leftoverPass (alloc1.zip (cities.map (fun c => c.max_days)))
          (total_days - days_allocated))
      else
        some alloc1

lemma tdiv_mul_le (a T : ℤ) (ha : 0 ≤ a) (hT : 0 < T) : Int.tdiv a T * T ≤ a := by
  rw [Int.tdiv_eq_ediv ha (le_of_lt hT)]
  exact Int.ediv_mul_le a (ne_of_gt hT)

lemma sum_tdiv_mul_le (r T : ℤ) (hr : 0 ≤ r) (hT : 0 < T) :
    ∀ l : List ℤ, (∀ p ∈ l, 0 ≤ p) →
      (l.map (fun p => Int.tdiv (r * p) T)).sum * T ≤ r * l.sum
  | [], _ => by simp
  | p :: rest, hl => by
    have h1 : Int.tdiv (r * p) T * T ≤ r * p :=
      tdiv_mul_le _ _ (mul_nonneg hr (hl p (List.mem_cons_self p rest))) hT
    have h2 := sum_tdiv_mul_le r T hr hT rest (fun q hq => hl q (List.mem_cons_of_mem p hq))
    simp only [List.map_cons, List.sum_cons]
    calc (Int.tdiv (r * p) T + (rest.map (fun q => Int.tdiv (r * q) T)).sum) * T
        = Int.tdiv (r * p) T * T + (rest.map (fun q => Int.tdiv (r * q) T)).sum * T := by ring
      _ ≤ r * p + r * rest.sum := add_le_add h1 h2
      _ = r * (p + rest.sum) := by ring

lemma leftoverPass_forall (f : CityStop → ℤ) :
    ∀ (cs : List CityStop) (k : ℤ), (∀ c ∈ cs, c.min_days ≤ f c ∧ f c ≤ c.max_days) →
      List.Forall₂ (fun c b => c.min_days ≤ b ∧ b ≤ c.max_days)
        cs (leftoverPass (cs.map (fun c => (f c, c.max_days))) k)
  | [], _, _ => by simp [leftoverPass]
  | c :: cs, k, h => by
    have hc := h c (List.mem_cons_self c cs)
    have hrest : ∀ d ∈ cs, d.min_days ≤ f d ∧ f d ≤ d.max_days :=
      fun d hd => h d (List.mem_cons_of_mem c hd)
    simp only [List.map_cons, leftoverPass]
    by_cases hb : f c < c.max_days ∧ 0 < k
    · rw [if_pos hb]
      exact List.Forall₂.cons ⟨by linarith [hc.1], by linarith [hb.1]⟩
        (leftoverPass_forall f cs (k - 1) hrest)
    · rw [if_neg hb]
      exact List.Forall₂.cons ⟨hc.1, hc.2⟩ (leftoverPass_forall f cs k hrest)

lemma leftoverPass_sum (f : CityStop → ℤ) :
    ∀ (cs : List CityStop) (k : ℤ),
      (leftoverPass (cs.map (fun c => (f c, c.max_days))) k).sum
        ≤ (cs.map f).sum + max k 0
  | [], k => by simp [leftoverPass, le_max_right]
  | c :: cs, k => by
    simp only [List.map_cons, leftoverPass, List.sum_cons]
    by_cases hb : f c < c.max_days ∧ 0 < k
    · rw [if_pos hb]
      have h2 := leftoverPass_sum f cs (k - 1)
      have hmax : max (k - 1) 0 = k - 1 := max_eq_left (by omega)
      rw [hmax] at h2
      have hk : max k 0 = k := max_eq_left (by omega)
      simp only [List.sum_cons, hk]
      linarith
    · rw [if_neg hb]
      have h2 := leftoverPass_sum f cs k
      simp only [List.sum_cons]
      linarith

/-- C3 (amended): for well-formed stops (`0 ≤ min_days ≤ max_days`,
`0 ≤ preferred_days`, and a positive total preference when the list is
nonempty) with `total_days` at least the sum of minimums, `_allocate_days`
returns an allocation in which every city stays within `[min_days, max_days]`
and whose sum is at most `total_days`.  Exact conservation
(`sum = total_days`) does NOT hold in general: the rounding loop makes a
single pass handing out at most one day per city, see
`allocate_days_sum_counterexample`. -/
theorem allocate_days_inRange_sum_le (cities : List CityStop) (total_days : ℤ)
    (hwf : ∀ c ∈ cities, 0 ≤ c.min_days ∧ c.min_days ≤ c.max_days ∧ 0 ≤ c.preferred_days)
    (hmin : (cities.map (fun c => c.min_days)).sum ≤ total_days)
    (hpref : cities = [] ∨ 0 < (cities.map (fun c => c.preferred_days)).sum) :
    ∃ alloc, allocate_days cities total_days = some alloc
      ∧ List.Forall₂ (fun c a => c.min_days ≤ a ∧ a ≤ c.max_days) cities alloc
      ∧ alloc.sum ≤ total_days := by
  have hmins : List.Forall₂ (fun c a => c.min_days ≤ a ∧ a ≤ c.max_days)
      cities (cities.map (fun c => c.min_days)) := by
    rw [List.forall₂_map_right_iff]
    exact List.forall₂_same.2 (fun c hc => ⟨le_refl _, (hwf c hc).2.1⟩)
  by_cases h0 : total_days - (cities.map (fun c => c.min_days)).sum ≤ 0
  · exact ⟨cities.map (fun c => c.min_days), by simp [allocate_days, h0], hmins, hmin⟩
  rcases hpref with rfl | hpos
  · exact ⟨[], by simp [allocate_days], List.Forall₂.nil, by simpa using hmin⟩
  set r := total_days - (cities.map (fun c => c.min_days)).sum with hr
  set T := (cities.map (fun c => c.preferred_days)).sum with hT
  have hTne : ¬ T = 0 := ne_of_gt hpos
  set g : CityStop → ℤ := fun c =>
    c.min_days + min (Int.tdiv (r * c.preferred_days) T) (c.max_days - c.min_days) with hg
  have hgfacts : ∀ c ∈ cities, c.min_days ≤ g c ∧ g c ≤ c.max_days := by
    intro c hc
    have h1 : 0 ≤ Int.tdiv (r * c.preferred_days) T :=
      Int.tdiv_nonneg (mul_nonneg (by omega) (hwf c hc).2.2) (le_of_lt hpos)
    have h2 : (0 : ℤ) ≤ c.max_days - c.min_days := by linarith [(hwf c hc).2.1]
    constructor
    · have := le_min h1 h2
      simp only [hg]; linarith
    · have := min_le_right (Int.tdiv (r * c.preferred_days) T) (c.max_days - c.min_days)
      simp only [hg]; linarith
  have hfor1 : List.Forall₂ (fun c a => c.min_days ≤ a ∧ a ≤ c.max_days)
      cities (cities.map g) := by
    rw [List.forall₂_map_right_iff]
    exact List.forall₂_same.2 hgfacts
  have hsum1 : (cities.map g).sum ≤ total_days := by
    have hsplit : (cities.map g).sum
        = (cities.map (fun c => c.min_days)).sum
          + (cities.map (fun c =>
              min (Int.tdiv (r * c.preferred_days) T) (c.max_days - c.min_days))).sum := by
      rw [← List.sum_map_add]
    have hmono : (cities.map (fun c =>
          min (Int.tdiv (r * c.preferred_days) T) (c.max_days - c.min_days))).sum
        ≤ (cities.map (fun c => Int.tdiv (r * c.preferred_days) T)).sum := by
      apply List.sum_le_sum
      intro c _
      exact min_le_left _ _
    have hdivsum : (cities.map (fun c => Int.tdiv (r * c.preferred_days) T)).sum ≤ r := by
      have hmm : cities.map (fun c => Int.tdiv (r * c.preferred_days) T)
          = (cities.map (fun c => c.preferred_days)).map (fun p => Int.tdiv (r * p) T) := by
        rw [List.map_map]
        rfl
      have key := sum_tdiv_mul_le r T (by omega) hpos
        (cities.map (fun c => c.preferred_days))
        (by intro p hp
            rcases List.mem_map.1 hp with ⟨c, hc, rfl⟩
            exact (hwf c hc).2.2)
      rw [← hT] at key
      rw [hmm]
      exact le_of_mul_le_mul_right (by linarith [key]) hpos
    omega
  by_cases h2 : (cities.map g).sum < total_days
  · refine ⟨leftoverPass ((cities.map g).zip (cities.map (fun c => c.max_days)))
      (total_days - (cities.map g).sum), ?_, ?_, ?_⟩
    · simp only [allocate_days]
      rw [if_neg h0, if_neg hTne, if_pos h2]
    · rw [List.zip_map']
      exact leftoverPass_forall g cities _ hgfacts
    · rw [List.zip_map']
      have := leftoverPass_sum g cities (total_days - (cities.map g).sum)
      have hmax : max (total_days - (cities.map g).sum) 0
          = total_days - (cities.map g).sum := max_eq_left (by omega)
      rw [hmax] at this
      linarith
  · refine ⟨cities.map g, ?_, hfor1, hsum1⟩
    simp only [allocate_days]
    rw [if_neg h0, if_neg hTne, if_neg h2]

/-- C3 witness: the amended theorem applied to the spec's exact-fit example
(three stops with `min_days = preferred_days = 2`, `max_days = 5`, six days). -/
theorem allocate_days_inRange_sum_le_witness :
    ∃ alloc, allocate_days [mkCityStop "paris" 0 0 2 5 (some 2),
        mkCityStop "barcelona" 0 0 2 5 (some 2),
        mkCityStop "rome" 0 0 2 5 (some 2)] 6 = some alloc
      ∧ List.Forall₂ (fun c a => c.min_days ≤ a ∧ a ≤ c.max_days)
          [mkCityStop "paris" 0 0 2 5 (some 2), mkCityStop "barcelona" 0 0 2 5 (some 2),
           mkCityStop "rome" 0 0 2 5 (some 2)] alloc
      ∧ alloc.sum ≤ 6 :=
  allocate_days_inRange_sum_le _ 6 (by decide) (by decide) (Or.inr (by decide))

/-- C3 counterexample: a feasible instance (`Σ min = 0 ≤ 10`,
`Σ max = 21 ≥ 10`, well-formed stops) on which `_allocate_days` returns an
allocation summing to 7, not 10, although city `b` still has headroom:
the rounding loop gives each city at most one extra day in one pass. -/
theorem allocate_days_sum_counterexample :
    allocate_days [mkCityStop "a" 0 0 0 1 (some 1),
        mkCityStop "b" 0 0 0 20 (some 1)] 10 = some [1, 6]
      ∧ ([1, 6] : List ℤ).sum ≠ 10
      ∧ ([(mkCityStop "a" 0 0 0 1 (some 1)).min_days,
          (mkCityStop "b" 0 0 0 20 (some 1)).min_days].sum ≤ (10 : ℤ))
      ∧ ((10 : ℤ) ≤ [(mkCityStop "a" 0 0 0 1 (some 1)).max_days,
          (mkCityStop "b" 0 0 0 20 (some 1)).max_days].sum)
      ∧ (6 : ℤ) < (mkCityStop "b" 0 0 0 20 (some 1)).max_days := by
  refine ⟨by decide, by decide, by decide, by decide, by decide⟩

/-- C10: when every stop's `preferred_days` is zero (for instance built by
the constructor from `min_days = 0` with `preferred_days` unset, since
`preferred_days or min_days` replaces any falsy value by `min_days`) and
`total_days` exceeds the sum of minimum days, `_allocate_days` divides by a
zero total preference and raises `ZeroDivisionError` (modelled as `none`). -/
theorem allocate_days_zero_preference (cities : List CityStop) (total_days : ℤ)
    (hne : cities ≠ [])
    (hpref : ∀ c ∈ cities, c.preferred_days = 0)
    (hmin : (cities.map (fun c => c.min_days)).sum < total_days) :
    allocate_days cities total_days = none := by
  have hT : (cities.map (fun c => c.preferred_days)).sum = 0 := by
    apply List.sum_eq_zero
    intro x hx
    rcases List.mem_map.1 hx with ⟨c, hc, rfl⟩
    exact hpref c hc
  have h0 : ¬ total_days - (cities.map (fun c => c.min_days)).sum ≤ 0 := by omega
  have hemp : cities.isEmpty = false := by
    cases cities with
    | nil => exact absurd rfl hne
    | cons c cs => rfl
  simp only [allocate_days]
  rw [if_neg h0, if_pos hT, hemp]
  rfl

/-- C10 witness: a single constructor-built stop with `min_days = 0` and
`preferred_days` unset makes the allocation of 5 days fail. -/
theorem allocate_days_zero_preference_witness :
    allocate_days [mkCityStop "paris" 0 0 0 7 none] 5 = none :=
  allocate_days_zero_preference _ 5 (by decide) (by decide) (by decide)

/-- One merged forecast row (`_merge_forecasts` output) after bounds
validation: date plus the four projected signals. -/
structure ForecastRow where
  ds : ℤ
  price_hat : ℚ
  temp_hat : ℚ
  precip_hat : ℚ
  crowd_hat : ℚ
deriving DecidableEq

/-- A forecast row extended with the score columns added by
`calculate_travel_scores` (the `ds` column is renamed to `date` there). -/
structure ScoredRow where
  date : ℤ
  price_hat : ℚ
  temp_hat : ℚ
  precip_hat : ℚ
  crowd_hat : ℚ
  price_score : ℚ
  weather_score : ℚ
  crowd_score : ℚ
  travel_score : ℚ
deriving DecidableEq

/-- pandas `Series.clip(lo, hi)` on an exact value. -/
def clipQ (x lo hi : ℚ) : ℚ := max lo (min x hi)

/-- pandas `Series.min()` over a data-frame column (0 as the irrelevant
value of an empty column, which the callers never consult). -/
def seriesMin (l : List ℚ) : ℚ := l.min?.getD 0

/-- pandas `Series.max()` over a data-frame column. -/
def seriesMax (l : List ℚ) : ℚ := l.max?.getD 0

/-- Embeds `ForecastService.calculate_travel_scores`.  Exact-rational embedding:
no NaN can arise, so the final `fillna(50)` on `travel_score` is the
identity and is not represented. -/
def calculate_travel_scores (forecast_df : List ForecastRow)
    (ideal_temp temp_tolerance : ℚ) : List ScoredRow :=
  let price_min := seriesMin (forecast_df.map (fun r => r.price_hat))
  let price_max := seriesMax (forecast_df.map (fun r => r.price_hat))
  let price_range := price_max - price_min
  let price_score : ForecastRow → ℚ := fun r =>
    if price_range > 1 / 100 then clipQ ((price_max - r.price_hat) / price_range) 0 1 * 100
    else 50
  let crowd_min := seriesMin (forecast_df.map (fun r => r.crowd_hat))
  let crowd_max := seriesMax (forecast_df.map (fun r => r.crowd_hat))
  let crowd_range := crowd_max - crowd_min
  let crowd_score : ForecastRow → ℚ := fun r =>
    if crowd_range > 1 / 100 then clipQ ((crowd_max - r.crowd_hat) / crowd_range) 0 1 * 100
    else 50
  let weather_base : ForecastRow → ℚ := fun r =>
    clipQ (1 - |r.temp_hat - ideal_temp| / temp_tolerance) 0 1 * 100
  let precip_max := seriesMax (forecast_df.map (fun r => r.precip_hat))
  let precip_penalty : ForecastRow → ℚ := fun r =>
    if precip_max > 0 then (1 - r.precip_hat / precip_max) * 20 else 0
  let weather_score : ForecastRow → ℚ := fun r =>
    clipQ (weather_base r - precip_penalty r) 0 100
  forecast_df.map (fun r =>
    { date := r.ds
      price_hat := r.price_hat
      temp_hat := r.temp_hat
      precip_hat := r.precip_hat
      crowd_hat := r.crowd_hat
      price_score := price_score r
      weather_score := weather_score r
      crowd_score := crowd_score r
      travel_score := 0.40 * price_score r + 0.30 * weather_score r + 0.30 * crowd_score r })

/-- Constant `config.TRAVEL_SCORE_WEIGHTS`: the alternate weighting scheme found in
configuration (price 0.4 / weather 0.35 / crowd 0.25). -/
structure ScoreWeights where
  price : ℚ
  weather : ℚ
  crowd : ℚ

def TRAVEL_SCORE_WEIGHTS : ScoreWeights :=
  { price := 0.4, weather := 0.35, crowd := 0.25 }

/-- Embeds `utils.score_calculator.calculate_travel_score`: the helper reading
`TRAVEL_SCORE_WEIGHTS` (not called by the forecasting pipeline). -/
def calculate_travel_score (weather_comfort price_score crowd_score : ℚ) : ℚ :=
  TRAVEL_SCORE_WEIGHTS.weather * weather_comfort
    + TRAVEL_SCORE_WEIGHTS.price * price_score
    + TRAVEL_SCORE_WEIGHTS.crowd * crowd_score

/-- C5: every row scored by the pipeline satisfies
`travel_score = 0.40 * price_score + 0.30 * weather_score + 0.30 * crowd_score`,
and the alternate configuration weighting (0.4/0.35/0.25, exercised only by
the unused `calculate_travel_score` helper) disagrees with these canonical
weights on some input. -/
theorem travel_score_weights (forecast_df : List ForecastRow)
    (ideal_temp temp_tolerance : ℚ) :
    (∀ s ∈ calculate_travel_scores forecast_df ideal_temp temp_tolerance,
        s.travel_score = 0.40 * s.price_score + 0.30 * s.weather_score + 0.30 * s.crowd_score)
      ∧ calculate_travel_score 100 0 0 ≠ 0.40 * 0 + 0.30 * 100 + 0.30 * 0 := by
  constructor
  · intro s hs
    rcases List.mem_map.1 hs with ⟨r, _, rfl⟩
    rfl
  · norm_num [calculate_travel_score, TRAVEL_SCORE_WEIGHTS]

/-- C5 witness: a concrete scored row of a one-row frame (price 300,
temperature 22, no rain, crowd 20) satisfies the weighting identity. -/
theorem travel_score_weights_witness :
    (⟨0, 300, 22, 0, 20, 50, 100, 50, 65⟩ : ScoredRow).travel_score
      = 0.40 * (⟨0, 300, 22, 0, 20, 50, 100, 50, 65⟩ : ScoredRow).price_score
        + 0.30 * (⟨0, 300, 22, 0, 20, 50, 100, 50, 65⟩ : ScoredRow).weather_score
        + 0.30 * (⟨0, 300, 22, 0, 20, 50, 100, 50, 65⟩ : ScoredRow).crowd_score := by
  have hmem : (⟨0, 300, 22, 0, 20, 50, 100, 50, 65⟩ : ScoredRow)
      ∈ calculate_travel_scores [⟨0, 300, 22, 0, 20⟩] 22 15 := by
    simp only [calculate_travel_scores, seriesMin, seriesMax, clipQ, List.map_cons,
      List.map_nil, List.min?, List.max?, List.mem_singleton]
    norm_num
  exact (travel_score_weights [⟨0, 300, 22, 0, 20⟩] 22 15).1 _ hmem

/-- C2 (code bug): on two otherwise identical weeks with precipitation 0
and 10, the code's penalty `(1 - precip/max) * 20` hits the DRY week with
the full 20 points (weather score 80 instead of 100) and the rainiest week
with 0 (weather score 100), inverting the documented
"more rain = lower score" rule. -/
theorem precip_penalty_inverted :
    calculate_travel_scores [⟨0, 300, 22, 0, 20⟩, ⟨1, 300, 22, 10, 20⟩] 22 15
      = [⟨0, 300, 22, 0, 20, 50, 80, 50, 59⟩,
         ⟨1, 300, 22, 10, 20, 50, 100, 50, 65⟩] := by
  simp only [calculate_travel_scores, seriesMin, seriesMax, clipQ, List.map_cons,
    List.map_nil, List.min?, List.max?]
  norm_num [max_def, min_def]

/-- Models `round(float(x), d)` of the source, on exact values.  Python rounds
half to even on binary floats; this agrees with `round` except exactly at
representable halves, which no claim depends on. -/
def roundTo (d : ℕ) (x : ℚ) : ℚ := ((round (x * 10 ^ d) : ℤ) : ℚ) / 10 ^ d

/-- The best-window dict built at the end of `find_best_travel_window`. -/
structure BestWindow where
  best_week : ℤ
  travel_score : ℚ
  price : ℚ
  temperature : ℚ
  precipitation : ℚ
  crowd_level : ℚ
  price_score : ℚ
  weather_score : ℚ
  crowd_score : ℚ
  trip_days : ℕ
deriving DecidableEq

/-- The best-window info returned by `find_best_travel_window` (second
component of the Python pair; the sorted data-frame copy it also returns
is consumed only through `calculate_confidence`, modelled separately). -/
inductive WindowResult
  | errNoFutureDates
  | errNoBudgetPeriods (min_price : Option ℚ)
  | errNoValidScores
  | best (w : BestWindow)
deriving DecidableEq

/-- The future-date filter `df[df["date"] >= today]` (applied when
`future_only`); `today` stands for `pd.Timestamp.now()`. -/
def futureRows (scored_df : List ScoredRow) (future_only : Bool) (today : ℤ) :
    List ScoredRow :=
  if future_only then scored_df.filter (fun r => today ≤ r.date) else scored_df

/-- The candidate rows after both the future-date filter and the budget
filter `df[df["price_hat"] <= max_budget]`. -/
def candidateRows (scored_df : List ScoredRow) (future_only : Bool)
    (max_budget : Option ℚ) (today : ℤ) : List ScoredRow :=
  let df := futureRows scored_df future_only today
  match max_budget with
  | none => df
  | some b => df.filter (fun r => r.price_hat ≤ b)

/-- pandas `rolling(window=w, min_periods=1, center=False).mean()`:
a trailing moving average over the last `w` entries (fewer at the start). -/
def rollingMean (w : ℕ) (xs : List ℚ) : List ℚ :=
  (List.range xs.length).map (fun i =>
    let seg := (xs.take (i + 1)).drop (i + 1 - w)
    seg.sum / seg.length)

/-- Models `Series.idxmax` over rows paired with their rolling score: the FIRST
row attaining the maximal score wins ties (pandas keeps the first
occurrence of the maximum). -/
def pickBestRow : List (ScoredRow × ℚ) → Option (ScoredRow × ℚ)
  | [] => none
  | p :: ps =>
    match pickBestRow ps with
    | none => some p
    | some q => if p.2 < q.2 then some q else some p

/-- Reference selector: the first row attaining the maximal value of `f`. -/
def firstArgmaxBy (f : ScoredRow → ℚ) : List ScoredRow → Option ScoredRow
  | [] => none
  | r :: rs =>
    match firstArgmaxBy f rs with
    | none => some r
    | some q => if f r < f q then some q else some r

/-- The `best_window` dict literal of `find_best_travel_window` (lines
539-550): fields of the best row, rounded, plus the final score. -/
def bestWindowDict (best_row : ScoredRow) (final_score : ℚ) (trip_days : ℕ) :
    BestWindow :=
  { best_week := best_row.date
    travel_score := roundTo 2 final_score
    price := roundTo 2 best_row.price_hat
    temperature := roundTo 1 best_row.temp_hat
    precipitation := roundTo 1 best_row.precip_hat
    crowd_level := roundTo 1 best_row.crowd_hat
    price_score := roundTo 1 best_row.price_score
    weather_score := roundTo 1 best_row.weather_score
    crowd_score := roundTo 1 best_row.crowd_score
    trip_days := trip_days }

/-- Rolling-score computation and argmax of `find_best_travel_window`
on the filtered candidate rows.  In exact arithmetic no NaN exists, so the
dropna/"all NaN" fallback branches of the source are dead and the
`errNoValidScores` case occurs only for an empty candidate list (which the
callers have already excluded). -/
def selectBestWindow (df : List ScoredRow) (trip_days : ℕ) : WindowResult :=
  let weeks_window := max 1 (trip_days / 7)
  let rolling := rollingMean weeks_window (df.map (fun r => r.travel_score))
  match pickBestRow (df.zip rolling) with
  | none => WindowResult.errNoValidScores
  | some p => WindowResult.best (bestWindowDict p.1 p.2 trip_days)

/-- Embeds `ForecastService.find_best_travel_window` (best-window component). -/
def find_best_travel_window (scored_df : List ScoredRow) (trip_days : ℕ)
    (future_only : Bool) (max_budget : Option ℚ) (today : ℤ) : WindowResult :=
  let df := futureRows scored_df future_only today
  if df.isEmpty then WindowResult.errNoFutureDates
  else
    let df2 := candidateRows scored_df future_only max_budget today
    if max_budget.isSome && df2.isEmpty then
      WindowResult.errNoBudgetPeriods ((scored_df.map (fun r => r.price_hat)).min?)
    else selectBestWindow df2 trip_days

lemma rollingMean_one (xs : List ℚ) : rollingMean 1 xs = xs := by
  apply List.ext_getElem
  · simp [rollingMean]
  · intro i h1 h2
    simp only [rollingMean, List.getElem_map, List.getElem_range, Nat.add_sub_cancel]
    rw [List.drop_take_succ_eq_cons_getElem _ _ h2]
    simp

lemma pickBestRow_zip (f : ScoredRow → ℚ) :
    ∀ df : List ScoredRow,
      pickBestRow (df.zip (df.map f)) = (firstArgmaxBy f df).map (fun r => (r, f r))
  | [] => rfl
  | r :: rs => by
    have ih := pickBestRow_zip f rs
    simp only [List.map_cons, List.zip_cons_cons, pickBestRow, firstArgmaxBy]
    rw [show List.zipWith Prod.mk rs (List.map f rs) = rs.zip (rs.map f) from rfl, ih]
    cases h : firstArgmaxBy f rs with
    | none => simp
    | some q =>
      by_cases hlt : f r < f q
      · simp [hlt]
      · simp [hlt]

lemma mem_futureRows (scored_df : List ScoredRow) (future_only : Bool) (today : ℤ)
    (r : ScoredRow) (h : r ∈ futureRows scored_df future_only today) : r ∈ scored_df := by
  unfold futureRows at h
  cases future_only with
  | true => exact (List.mem_filter.1 h).1
  | false => exact h

lemma min?_spec (l : List ℚ) (a : ℚ) (h : l.min? = some a) :
    a ∈ l ∧ ∀ b ∈ l, a ≤ b :=
  ⟨List.min?_mem (fun x y => min_choice x y) h,
   fun b hb => (List.le_min?_iff (fun _ _ _ => le_min_iff) h).1 (le_refl a) b hb⟩

/-- C4: budget filtering in `find_best_travel_window`.  First: when every
price of the series exceeds `max_budget` (and future candidates exist at
all), the result is the budget-error dict carrying the minimum `price_hat`
of the whole series.  Second: when `max_budget` is at least every price of
the series, the budget filter removes nothing and the result is identical
to running with no budget. -/
theorem budget_filter_spec (scored_df : List ScoredRow) (trip_days : ℕ)
    (future_only : Bool) (today : ℤ) (b : ℚ) :
    ((futureRows scored_df future_only today ≠ []) →
      (∀ r ∈ scored_df, b < r.price_hat) →
      find_best_travel_window scored_df trip_days future_only (some b) today
        = WindowResult.errNoBudgetPeriods ((scored_df.map (fun r => r.price_hat)).min?)
      ∧ ∀ m, (scored_df.map (fun r => r.price_hat)).min? = some m →
          m ∈ scored_df.map (fun r => r.price_hat)
            ∧ ∀ q ∈ scored_df.map (fun r => r.price_hat), m ≤ q)
    ∧ ((∀ r ∈ scored_df, r.price_hat ≤ b) →
      find_best_travel_window scored_df trip_days future_only (some b) today
        = find_best_travel_window scored_df trip_days future_only none today) := by
  constructor
  · intro hne hb
    constructor
    · have hdfe : (futureRows scored_df future_only today).isEmpty = false := by
        cases hdf : futureRows scored_df future_only today with
        | nil => exact absurd hdf hne
        | cons x xs => rfl
      have hcand : candidateRows scored_df future_only (some b) today = [] := by
        simp only [candidateRows, List.filter_eq_nil_iff]
        intro r hr
        have := hb r (mem_futureRows _ _ _ _ hr)
        simpa using not_le_of_lt this
      simp only [find_best_travel_window, hdfe, Bool.false_eq_true, if_false, hcand,
        List.isEmpty_nil, Option.isSome_some, Bool.and_true, if_true]
    · intro m hm
      exact min?_spec _ m hm
  · intro hb
    have hcand : candidateRows scored_df future_only (some b) today
        = futureRows scored_df future_only today := by
      simp only [candidateRows, List.filter_eq_self]
      intro r hr
      simpa using hb r (mem_futureRows _ _ _ _ hr)
    cases hdf : (futureRows scored_df future_only today).isEmpty with
    | true =>
      simp only [find_best_travel_window, hdf, if_true]
    | false =>
      simp only [find_best_travel_window, hcand]
      have hnone : candidateRows scored_df future_only none today
          = futureRows scored_df future_only today := rfl
      rw [hnone]
      simp [hdf]

/-- C4 witness: a one-row future series priced 300.  With budget 100 the
result is the budget error carrying the series minimum; with budget 1000
the result coincides with the unbudgeted run. -/
theorem budget_filter_spec_witness :
    (find_best_travel_window [⟨5, 300, 22, 0, 20, 50, 100, 50, 65⟩] 7 true (some 100) 0
        = WindowResult.errNoBudgetPeriods
            (([⟨5, 300, 22, 0, 20, 50, 100, 50, 65⟩] : List ScoredRow).map
              (fun r => r.price_hat)).min?)
      ∧ (find_best_travel_window [⟨5, 300, 22, 0, 20, 50, 100, 50, 65⟩] 7 true (some 1000) 0
        = find_best_travel_window [⟨5, 300, 22, 0, 20, 50, 100, 50, 65⟩] 7 true none 0) :=
  ⟨((budget_filter_spec [⟨5, 300, 22, 0, 20, 50, 100, 50, 65⟩] 7 true 0 100).1
      (by decide)
      (by intro r hr; rw [List.mem_singleton] at hr; subst hr; norm_num)).1,
    (budget_filter_spec [⟨5, 300, 22, 0, 20, 50, 100, 50, 65⟩] 7 true 0 1000).2
      (by intro r hr; rw [List.mem_singleton] at hr; subst hr; norm_num)⟩

/-- C7: the rolling window spans `max(1, trip_days // 7)` weeks, so for any
`trip_days < 14` the window is a single week and the trailing rolling mean
is the identity; consequently the window selected by
`find_best_travel_window` is exactly the first row maximizing
`travel_score` among the filtered candidates, with `rolling_score` equal to
that row's `travel_score`. -/
theorem rolling_one_travel_argmax (scored_df : List ScoredRow) (trip_days : ℕ)
    (future_only : Bool) (max_budget : Option ℚ) (today : ℤ) (xs : List ℚ)
    (hlt : trip_days < 14) :
    rollingMean (max 1 (trip_days / 7)) xs = xs
    ∧ ∀ r, firstArgmaxBy (fun s => s.travel_score)
          (candidateRows scored_df future_only max_budget today) = some r →
        find_best_travel_window scored_df trip_days future_only max_budget today
          = WindowResult.best (bestWindowDict r r.travel_score trip_days) := by
  have hw : max 1 (trip_days / 7) = 1 := by
    have h2 : trip_days / 7 < 2 := (Nat.div_lt_iff_lt_mul (by norm_num)).2 (by omega)
    omega
  constructor
  · rw [hw]
    exact rollingMean_one xs
  · intro r harg
    have hne2 : candidateRows scored_df future_only max_budget today ≠ [] := by
      intro h
      rw [h] at harg
      simp [firstArgmaxBy] at harg
    have hdfne : futureRows scored_df future_only today ≠ [] := by
      intro h
      apply hne2
      simp only [candidateRows, h]
      cases max_budget <;> rfl
    have hdfe : (futureRows scored_df future_only today).isEmpty = false := by
      cases hdf : futureRows scored_df future_only today with
      | nil => exact absurd hdf hdfne
      | cons x xs => rfl
    have hce : (candidateRows scored_df future_only max_budget today).isEmpty = false := by
      cases hc : candidateRows scored_df future_only max_budget today with
      | nil => exact absurd hc hne2
      | cons x xs => rfl
    have hsel : selectBestWindow (candidateRows scored_df future_only max_budget today)
        trip_days = WindowResult.best (bestWindowDict r r.travel_score trip_days) := by
      simp only [selectBestWindow, hw, rollingMean_one, pickBestRow_zip, harg,
        Option.map_some']
    simp only [find_best_travel_window, hdfe, Bool.false_eq_true, if_false, hce,
      Bool.and_false, hsel]

/-- C7 witness: with a 7-day trip over two future candidate weeks scoring
59 and 71, the selected window is the travel-score argmax (score 71). -/
theorem rolling_one_travel_argmax_witness :
    find_best_travel_window [⟨5, 300, 22, 0, 20, 50, 100, 50, 59⟩,
        ⟨6, 250, 22, 0, 20, 80, 100, 50, 71⟩] 7 true none 0
      = WindowResult.best (bestWindowDict (⟨6, 250, 22, 0, 20, 80, 100, 50, 71⟩ : ScoredRow)
          (⟨6, 250, 22, 0, 20, 80, 100, 50, 71⟩ : ScoredRow).travel_score 7) :=
  (rolling_one_travel_argmax [⟨5, 300, 22, 0, 20, 50, 100, 50, 59⟩,
      ⟨6, 250, 22, 0, 20, 80, 100, 50, 71⟩] 7 true none 0 [] (by norm_num)).2
    _ (by decide)

/-- pandas `Series.mean()` of the rolling-score column, as a real. -/
noncomputable def seriesMean (l : List ℚ) : ℝ :=
  (l.map (fun x => (x : ℝ))).sum / l.length

/-- pandas `Series.std()`: the SAMPLE standard deviation (ddof = 1). -/
noncomputable def seriesStd (l : List ℚ) : ℝ :=
  Real.sqrt ((l.map (fun x => ((x : ℝ) - seriesMean l) ^ 2)).sum / ((l.length : ℝ) - 1))

/-- Whether the best-window dict carries the "error" key. -/
def hasError : WindowResult → Bool
  | WindowResult.best _ => false
  | _ => true

/-- Embeds `utils.score_calculator.calculate_confidence`.  The predictions frame
is represented by its `rolling_score` column (one entry per row; in exact
arithmetic no value is NaN, so `dropna` and the fallback to the
`travel_score` column for an all-NaN rolling column are identities and the
`len(all_scores) == 0` guard coincides with the `len(predictions_df) < 2`
one). -/
noncomputable def calculate_confidence (rolling_scores : List ℚ)
    (best_window : WindowResult) : ℝ :=
  match best_window with
  | WindowResult.errNoFutureDates => 0.3
  | WindowResult.errNoBudgetPeriods _ => 0.3
  | WindowResult.errNoValidScores => 0.3
  | WindowResult.best w =>
    if rolling_scores.length < 2 then 0.5
    else
      let best_score : ℝ := (w.travel_score : ℝ)
      let mean_score := seriesMean rolling_scores
      let std_score := seriesStd rolling_scores
      if std_score = 0 then 0.5
      else
        let z_score := (best_score - mean_score) / std_score
        max (min (0.5 + z_score * 0.2) 1.0) 0.3

/-- C6: confidence always lies in [0.3, 1.0]; it is exactly 0.3 on an
error window, 0.5 with fewer than two candidates or a zero standard
deviation, and otherwise the clipped z-score formula
`clip(0.5 + 0.2 z, 0.3, 1.0)`. -/
theorem confidence_spec (rolling_scores : List ℚ) (best_window : WindowResult) :
    (0.3 ≤ calculate_confidence rolling_scores best_window
      ∧ calculate_confidence rolling_scores best_window ≤ 1)
    ∧ (hasError best_window = true →
        calculate_confidence rolling_scores best_window = 0.3)
    ∧ (∀ w, best_window = WindowResult.best w →
        ((rolling_scores.length < 2 ∨ seriesStd rolling_scores = 0) →
          calculate_confidence rolling_scores best_window = 0.5)
        ∧ (¬ rolling_scores.length < 2 → seriesStd rolling_scores ≠ 0 →
          calculate_confidence rolling_scores best_window
            = max (min (0.5 + ((w.travel_score : ℝ) - seriesMean rolling_scores)
                / seriesStd rolling_scores * 0.2) 1) 0.3)) := by
  refine ⟨?_, ?_, ?_⟩
  · cases best_window with
    | best w =>
      simp only [calculate_confidence]
      by_cases h1 : rolling_scores.length < 2
      · rw [if_pos h1]; norm_num
      · rw [if_neg h1]
        by_cases h2 : seriesStd rolling_scores = 0
        · rw [if_pos h2]; norm_num
        · rw [if_neg h2]
          constructor
          · exact le_max_right _ _
          · exact max_le (le_trans (min_le_right _ _) (by norm_num)) (by norm_num)
    | errNoFutureDates => simp only [calculate_confidence]; norm_num
    | errNoBudgetPeriods m => simp only [calculate_confidence]; norm_num
    | errNoValidScores => simp only [calculate_confidence]; norm_num
  · intro herr
    cases best_window with
    | best w => simp [hasError] at herr
    | errNoFutureDates => rfl
    | errNoBudgetPeriods m => rfl
    | errNoValidScores => rfl
  · intro w hw
    subst hw
    constructor
    · intro hcase
      rcases hcase with h1 | h2
      · simp only [calculate_confidence, if_pos h1]
      · simp only [calculate_confidence]
        by_cases h1 : rolling_scores.length < 2
        · rw [if_pos h1]
        · rw [if_neg h1, if_pos h2]
    · intro h1 h2
      simp only [calculate_confidence, if_neg h1, if_neg h2]
      norm_num

/-- C6 witness: the error window gives exactly 0.3 and a single-candidate
frame gives exactly 0.5. -/
theorem confidence_spec_witness :
    calculate_confidence [] WindowResult.errNoFutureDates = 0.3
    ∧ calculate_confidence [65] (WindowResult.best ⟨0, 65, 300, 22, 0, 20, 50, 100, 50, 7⟩)
        = 0.5 :=
  ⟨(confidence_spec [] WindowResult.errNoFutureDates).2.1 rfl,
   ((confidence_spec [65] (WindowResult.best ⟨0, 65, 300, 22, 0, 20, 50, 100, 50, 7⟩)).2.2
      _ rfl).1 (Or.inl (by norm_num))⟩

/-- The `if v < lo: lo elif v > hi: hi` clamp pattern used for every field
of `validate_predictions`. -/
def clampVal (lo hi v : ℚ) : ℚ := if v < lo then lo else if v > hi then hi else v

/-- Embeds `utils.score_calculator.validate_predictions`: the function first makes
`validated = best_window.copy()` and then clamps the COPY field by field
(price to [150, 1500], temperature to [-10, 45], precipitation to [0, 150],
crowd level and all four scores to [0, 100]); the input record itself is
left untouched and the clamped copy is returned. -/
def validate_predictions (best_window : BestWindow) : BestWindow :=
  { best_window with
    price := clampVal 150 1500 best_window.price
    temperature := clampVal (-10) 45 best_window.temperature
    precipitation := clampVal 0 150 best_window.precipitation
    crowd_level := clampVal 0 100 best_window.crowd_level
    travel_score := clampVal 0 100 best_window.travel_score
    price_score := clampVal 0 100 best_window.price_score
    weather_score := clampVal 0 100 best_window.weather_score
    crowd_score := clampVal 0 100 best_window.crowd_score }

lemma clampVal_eq_clip (lo hi v : ℚ) (h : lo ≤ hi) :
    clampVal lo hi v = max lo (min v hi) := by
  unfold clampVal
  rcases lt_trichotomy v lo with h1 | h1 | h1
  · rw [if_pos h1]
    have : min v hi ≤ lo := le_of_lt (lt_of_le_of_lt (min_le_left _ _) h1)
    rw [max_eq_left this]
  · subst h1
    rw [if_neg (lt_irrefl v), if_neg (by exact not_lt_of_le h)]
    rw [min_eq_left h, max_self]
  · rw [if_neg (not_lt_of_lt h1)]
    by_cases h2 : v > hi
    · rw [if_pos h2, min_eq_right (le_of_lt h2), max_eq_right h]
    · rw [if_neg h2, min_eq_left (le_of_not_lt h2), max_eq_right (le_of_lt h1)]

/-- The tail of `TripTimeAI.predict_best_time` after the forecasting call
(error check, `calculate_confidence`, `validate_predictions`), with the
heap cell holding the produced best-window record made explicit: the first
result component is the content of that record once the phase has run, the
others are the confidence and the validated copy consumed downstream.  In
the source, `best_window` is only ever read after construction; the error
branch raises `ValueError` (`Except.error`). -/
noncomputable def predict_post_forecast (predictions_rolling : List ℚ)
    (best_window : WindowResult) : Except String (WindowResult × ℝ × BestWindow) :=
  match best_window with
  | WindowResult.errNoFutureDates => Except.error "No future dates available"
  | WindowResult.errNoBudgetPeriods _ => Except.error "No periods found within budget"
  | WindowResult.errNoValidScores => Except.error "No valid scores available"
  | WindowResult.best w =>
    let confidence := calculate_confidence predictions_rolling (WindowResult.best w)
    let validated_window := validate_predictions w
    Except.ok (WindowResult.best w, confidence, validated_window)

/-- C9 (amended): after a best-window record is produced, the prediction
path never mutates it at all: the phase returns the record exactly as
constructed, and the bounds-clamping pass operates on a copy, returning the
clamped copy (each bounded field of the copy is the clip of the original
into its documented range, the other fields are preserved). -/
theorem best_window_not_mutated (predictions_rolling : List ℚ) (w : BestWindow) :
    predict_post_forecast predictions_rolling (WindowResult.best w)
      = Except.ok (WindowResult.best w,
          calculate_confidence predictions_rolling (WindowResult.best w),
          validate_predictions w)
    ∧ (validate_predictions w).price = max 150 (min w.price 1500)
    ∧ (validate_predictions w).temperature = max (-10) (min w.temperature 45)
    ∧ (validate_predictions w).precipitation = max 0 (min w.precipitation 150)
    ∧ (validate_predictions w).crowd_level = max 0 (min w.crowd_level 100)
    ∧ (validate_predictions w).travel_score = max 0 (min w.travel_score 100)
    ∧ (validate_predictions w).price_score = max 0 (min w.price_score 100)
    ∧ (validate_predictions w).weather_score = max 0 (min w.weather_score 100)
    ∧ (validate_predictions w).crowd_score = max 0 (min w.crowd_score 100)
    ∧ (validate_predictions w).best_week = w.best_week
    ∧ (validate_predictions w).trip_days = w.trip_days := by
  refine ⟨rfl, ?_, ?_, ?_, ?_, ?_, ?_, ?_, ?_, rfl, rfl⟩
  all_goals
    simp only [validate_predictions]
    rw [clampVal_eq_clip _ _ _ (by norm_num)]

/-- C9 counterexample: for a window predicted at price 2000 the clamping
pass does NOT happen in place: the produced record still holds 2000 after
the prediction phase, while the returned copy holds the clamp 1500 — so the
record and its "clamped in place" value differ. -/
theorem best_window_inplace_counterexample :
    validate_predictions (⟨0, 65, 2000, 22, 0, 20, 50, 100, 50, 7⟩ : BestWindow)
        ≠ (⟨0, 65, 2000, 22, 0, 20, 50, 100, 50, 7⟩ : BestWindow)
    ∧ predict_post_forecast [] (WindowResult.best ⟨0, 65, 2000, 22, 0, 20, 50, 100, 50, 7⟩)
        = Except.ok (WindowResult.best ⟨0, 65, 2000, 22, 0, 20, 50, 100, 50, 7⟩,
            calculate_confidence [] (WindowResult.best ⟨0, 65, 2000, 22, 0, 20, 50, 100, 50, 7⟩),
            validate_predictions ⟨0, 65, 2000, 22, 0, 20, 50, 100, 50, 7⟩)
    ∧ (validate_predictions (⟨0, 65, 2000, 22, 0, 20, 50, 100, 50, 7⟩ : BestWindow)).price
        = 1500
    ∧ (⟨0, 65, 2000, 22, 0, 20, 50, 100, 50, 7⟩ : BestWindow).price = 2000 := by
  have hp : (validate_predictions (⟨0, 65, 2000, 22, 0, 20, 50, 100, 50, 7⟩ : BestWindow)).price
      = 1500 := by
    simp only [validate_predictions, clampVal]
    norm_num
  refine ⟨?_, rfl, hp, rfl⟩
  intro h
  have := congrArg BestWindow.price h
  rw [hp] at this
  norm_num at this

/-- Models `math.radians`. -/
noncomputable def radians (x : ℝ) : ℝ := x * Real.pi / 180

open Classical in
/-- Models `math.atan2`, the two-argument arctangent (the haversine formula calls
it with nonnegative arguments only). -/
noncomputable def atan2 (y x : ℝ) : ℝ :=
  if 0 < x then Real.arctan (y / x)
  else if x < 0 then
    if 0 ≤ y then Real.arctan (y / x) + Real.pi
    else Real.arctan (y / x) - Real.pi
  else if 0 < y then Real.pi / 2
  else if y < 0 then -(Real.pi / 2)
  else 0

/-- Embeds `MultiCityPlanner._calculate_distance`: haversine great-circle distance
with Earth radius 6371 km. -/
noncomputable def _calculate_distance (lat1 lon1 lat2 lon2 : ℚ) : ℝ :=
  let R : ℝ := 6371
  let lat1_rad := radians (lat1 : ℝ)
  let lat2_rad := radians (lat2 : ℝ)
  let delta_lat := radians ((lat2 : ℝ) - (lat1 : ℝ))
  let delta_lon := radians ((lon2 : ℝ) - (lon1 : ℝ))
  let a := Real.sin (delta_lat / 2) ^ 2
    + Real.cos lat1_rad * Real.cos lat2_rad * Real.sin (delta_lon / 2) ^ 2
  let c := 2 * atan2 (Real.sqrt a) (Real.sqrt (1 - a))
  R * c

/-- Embeds `MultiCityPlanner._calculate_route_distance`: sum of the pairwise
distances along the path (an open path, not a closed tour). -/
noncomputable def _calculate_route_distance : List CityStop → ℝ
  | a :: b :: rest =>
    _calculate_distance a.lat a.lon b.lat b.lon + _calculate_route_distance (b :: rest)
  | _ => 0

open Classical in
/-- One iteration of the loop of `_optimize_route_exhaustive`: replace the
incumbent when the permutation is strictly shorter.  The incumbent distance
is an `Option ℝ`, `none` standing for the initial `float('inf')` (which any
finite distance beats). -/
noncomputable def routeFoldStep :
    List CityStop × Option ℝ → List CityStop → List CityStop × Option ℝ
  | (_, none), p => (p, some (_calculate_route_distance p))
  | (best_route, some bd), p =>
    if _calculate_route_distance p < bd then (p, some (_calculate_route_distance p))
    else (best_route, some bd)

/-- Embeds `MultiCityPlanner._optimize_route_exhaustive`: try all permutations and
keep the shortest.  (`itertools.permutations` and `List.permutations`
enumerate the same set of permutations, in different orders; the claims are
insensitive to the enumeration order.) -/
noncomputable def _optimize_route_exhaustive (cities : List CityStop) : List CityStop :=
  (cities.permutations.foldl routeFoldStep (cities, none)).1

open Classical in
/-- Python `min(remaining, key=distance-to-last)`: the first element
attaining the minimal distance. -/
noncomputable def nearestCity (last : CityStop) : List CityStop → Option CityStop
  | [] => none
  | c :: cs =>
    match nearestCity last cs with
    | none => some c
    | some q =>
      if _calculate_distance last.lat last.lon q.lat q.lon
          < _calculate_distance last.lat last.lon c.lat c.lon then some q
      else some c

/-- The while-loop of `_optimize_route_greedy`, with the length of the
remaining list as fuel. -/
noncomputable def greedyAux : ℕ → CityStop → List CityStop → List CityStop
  | 0, _, _ => []
  | n + 1, last, remaining =>
    match nearestCity last remaining with
    | none => []
    | some nearest => nearest :: greedyAux n nearest (remaining.erase nearest)

/-- Embeds `MultiCityPlanner._optimize_route_greedy`: nearest-neighbour route
starting from the first stop. -/
noncomputable def _optimize_route_greedy (cities : List CityStop) : List CityStop :=
  match cities with
  | [] => []
  | c :: rest => c :: greedyAux rest.length c rest

/-- Embeds `MultiCityPlanner._optimize_route`: identity for at most one stop,
exhaustive search up to six stops, greedy nearest-neighbour beyond. -/
noncomputable def _optimize_route (cities : List CityStop) : List CityStop :=
  if cities.length ≤ 1 then cities
  else if cities.length ≤ 6 then _optimize_route_exhaustive cities
  else _optimize_route_greedy cities

lemma routeFold_spec :
    ∀ (perms : List (List CityStop)) (init : List CityStop × Option ℝ),
      (init.2 = none ∨ init.2 = some (_calculate_route_distance init.1)) →
      ((perms.foldl routeFoldStep init).1 = init.1
          ∨ (perms.foldl routeFoldStep init).1 ∈ perms)
      ∧ ((perms.foldl routeFoldStep init).2 = none
          ∨ (perms.foldl routeFoldStep init).2
            = some (_calculate_route_distance (perms.foldl routeFoldStep init).1))
      ∧ (∀ p ∈ perms, ∀ d, (perms.foldl routeFoldStep init).2 = some d
          → d ≤ _calculate_route_distance p)
      ∧ (init.2 ≠ none → (perms.foldl routeFoldStep init).2 ≠ none)
      ∧ (perms ≠ [] → (perms.foldl routeFoldStep init).2 ≠ none)
      ∧ (∀ d0, init.2 = some d0 → ∀ d, (perms.foldl routeFoldStep init).2 = some d
          → d ≤ d0)
  | [], init => by
    intro hOk
    refine ⟨Or.inl rfl, ?_, ?_, ?_, ?_, ?_⟩
    · simpa using hOk
    · intro p hp; simp at hp
    · intro h; simpa using h
    · intro h; exact absurd rfl h
    · intro d0 h0 d hd
      simp only [List.foldl_nil] at hd
      rw [h0] at hd
      injection hd with h
      rw [h]
  | p :: ps, init => by
    intro hOk
    obtain ⟨r0, o0⟩ := init
    have hstep : ∃ r1, routeFoldStep (r0, o0) p = (r1, some (_calculate_route_distance r1))
        ∧ _calculate_route_distance r1 ≤ _calculate_route_distance p
        ∧ (r1 = r0 ∨ r1 = p)
        ∧ (∀ d0, o0 = some d0 → _calculate_route_distance r1 ≤ d0) := by
      cases o0 with
      | none =>
        exact ⟨p, rfl, le_refl _, Or.inr rfl, fun d0 h => by cases h⟩
      | some bd =>
        rcases hOk with h | h
        · cases h
        · have hbd : bd = _calculate_route_distance r0 := by
            simpa using h
          subst hbd
          by_cases hlt : _calculate_route_distance p < _calculate_route_distance r0
          · refine ⟨p, by simp [routeFoldStep, hlt], le_refl _, Or.inr rfl, ?_⟩
            intro d0 h0
            injection h0 with h0
            subst h0
            exact le_of_lt hlt
          · refine ⟨r0, by simp [routeFoldStep, hlt], le_of_not_lt hlt, Or.inl rfl, ?_⟩
            intro d0 h0
            injection h0 with h0
            rw [← h0]
    obtain ⟨r1, hstepEq, hr1p, hr1mem, hr1init⟩ := hstep
    obtain ⟨ih1, ih2, ih3, ih4, _, ih6⟩ :=
      routeFold_spec ps (r1, some (_calculate_route_distance r1)) (Or.inr rfl)
    rw [List.foldl_cons, hstepEq]
    have hres_ne : (ps.foldl routeFoldStep (r1, some (_calculate_route_distance r1))).2
        ≠ none := ih4 (Option.some_ne_none _)
    refine ⟨?_, ih2, ?_, ?_, ?_, ?_⟩
    · rcases ih1 with h | h
      · rcases hr1mem with h2 | h2
        · exact Or.inl (by rw [h, h2])
        · exact Or.inr (by rw [h, h2]; exact List.mem_cons_self p ps)
      · exact Or.inr (List.mem_cons_of_mem p h)
    · intro q hq d hd
      rcases List.mem_cons.1 hq with rfl | hq2
      · exact le_trans (ih6 _ rfl d hd) hr1p
      · exact ih3 q hq2 d hd
    · intro _
      exact hres_ne
    · intro _
      exact hres_ne
    · intro d0 h0 d hd
      exact le_trans (ih6 _ rfl d hd) (hr1init d0 h0)

/-- C8: for 2 to 6 stops, `_optimize_route` performs the exhaustive search
and returns a permutation of the input whose open-path haversine distance
is at most that of EVERY permutation of the stops, the input order
included. -/
theorem optimize_route_exhaustive_minimal (cities : List CityStop)
    (h2 : 2 ≤ cities.length) (h6 : cities.length ≤ 6) :
    (_optimize_route cities).Perm cities
    ∧ ∀ p : List CityStop, p.Perm cities →
        _calculate_route_distance (_optimize_route cities)
          ≤ _calculate_route_distance p := by
  have hdisp : _optimize_route cities = _optimize_route_exhaustive cities := by
    unfold _optimize_route
    rw [if_neg (by omega), if_pos h6]
  have hself : cities ∈ cities.permutations :=
    List.mem_permutations.2 (List.Perm.refl cities)
  have hne : cities.permutations ≠ [] := by
    intro h
    rw [h] at hself
    simp at hself
  obtain ⟨hmem, hOk, hmin, _, hnn, _⟩ :=
    routeFold_spec cities.permutations (cities, none) (Or.inl rfl)
  have hsome : (cities.permutations.foldl routeFoldStep (cities, none)).2
      = some (_calculate_route_distance
        (cities.permutations.foldl routeFoldStep (cities, none)).1) := by
    rcases hOk with h | h
    · exact absurd h (hnn hne)
    · exact h
  constructor
  · rw [hdisp]
    unfold _optimize_route_exhaustive
    rcases hmem with h | h
    · rw [h]
    · exact List.mem_permutations.1 h
  · intro p hp
    rw [hdisp]
    unfold _optimize_route_exhaustive
    exact hmin p (List.mem_permutations.2 hp) _ hsome

/-- C8 witness: two stops at distinct coordinates satisfy the size bounds
and hence the optimality statement at the input order itself. -/
theorem optimize_route_exhaustive_minimal_witness :
    (_optimize_route [mkCityStop "paris" (48 : ℚ) 2 2 4 none,
        mkCityStop "rome" (42 : ℚ) 12 2 4 none]).Perm
      [mkCityStop "paris" (48 : ℚ) 2 2 4 none, mkCityStop "rome" (42 : ℚ) 12 2 4 none]
    ∧ _calculate_route_distance (_optimize_route [mkCityStop "paris" (48 : ℚ) 2 2 4 none,
        mkCityStop "rome" (42 : ℚ) 12 2 4 none])
      ≤ _calculate_route_distance [mkCityStop "paris" (48 : ℚ) 2 2 4 none,
        mkCityStop "rome" (42 : ℚ) 12 2 4 none] :=
  ⟨(optimize_route_exhaustive_minimal _ (by decide) (by decide)).1,
   (optimize_route_exhaustive_minimal _ (by decide) (by decide)).2 _ (List.Perm.refl _)⟩

/-- One itinerary entry as consumed by `_calculate_trip_costs`: city,
coordinates, days, and the predicted price when the per-city prediction
succeeded (`stop.get("predicted_price", 0)` yields 0 when it did not). -/
structure ItineraryStop where
  city : String
  lat : ℚ
  lon : ℚ
  days : ℤ
  predicted_price : Option ℚ

/-- One entry of the "flights" list of the cost breakdown. -/
structure FlightDetail where
  dep_city : String
  arr_city : String
  distance_km : ℝ
  cost : ℝ

/-- A value of the heterogeneous cost-breakdown dict. -/
inductive CostVal
  | num (x : ℝ)
  | table (m : List (String × ℝ))
  | flightList (l : List FlightDetail)

/-- Models `round(x, d)` on reals (see `roundTo` for the rounding-mode caveat). -/
noncomputable def roundToR (d : ℕ) (x : ℝ) : ℝ := ((round (x * 10 ^ d) : ℤ) : ℝ) / 10 ^ d

/-- Models `stop.get("predicted_price", 0)`: the hotel cost of one stop. -/
def hotelCost (s : ItineraryStop) : ℚ := s.predicted_price.getD 0

/-- The inter-city flight costs accumulated into `total_flights`
(unrounded; `$0.15` per km between consecutive stops). -/
noncomputable def interFlightCosts : List ItineraryStop → List ℝ
  | a :: b :: rest =>
    _calculate_distance a.lat a.lon b.lat b.lon * 0.15 :: interFlightCosts (b :: rest)
  | _ => []

/-- The inter-city entries of the "flights" list (rounded copies). -/
noncomputable def interFlightDetails : List ItineraryStop → List FlightDetail
  | a :: b :: rest =>
    { dep_city := a.city
      arr_city := b.city
      distance_km := roundToR 1 (_calculate_distance a.lat a.lon b.lat b.lon)
      cost := roundToR 2 (_calculate_distance a.lat a.lon b.lat b.lon * 0.15) }
      :: interFlightDetails (b :: rest)
  | _ => []

/-- The per-city entries of the "breakdown" dict from the second stop on:
a flight entry followed by an accommodation entry, in loop order. -/
noncomputable def cityCostAux (prev : ItineraryStop) : List ItineraryStop → List (String × ℝ)
  | [] => []
  | b :: rest =>
    ("Flight " ++ prev.city ++ " → " ++ b.city,
        roundToR 2 (_calculate_distance prev.lat prev.lon b.lat b.lon * 0.15))
      :: (b.city ++ " accommodation", roundToR 2 ((hotelCost b : ℚ) : ℝ))
      :: cityCostAux b rest

/-- Embeds `MultiCityPlanner._calculate_trip_costs`, as the Python dict it builds:
an association list with the LITERAL keys of the source return statement.
`origin_lat`/`origin_lon` stand for `_lookup_origin_coords()`.  Note the
grand total is stored under the key "total_cost". -/
noncomputable def _calculate_trip_costs (origin_city : String)
    (origin_lat origin_lon : ℚ) (itinerary : List ItineraryStop) :
    List (String × CostVal) :=
  let total_hotel : ℝ := (itinerary.map (fun s => ((hotelCost s : ℚ) : ℝ))).sum
  let return_cost : ℝ :=
    match itinerary.getLast? with
    | none => 0
    | some last => _calculate_distance last.lat last.lon origin_lat origin_lon * 0.15
  let total_flights : ℝ := (interFlightCosts itinerary).sum + return_cost
  let city_costs : List (String × ℝ) :=
    (match itinerary with
     | [] => []
     | a :: rest =>
       (a.city ++ " accommodation", roundToR 2 ((hotelCost a : ℚ) : ℝ))
         :: cityCostAux a rest)
    ++ (match itinerary.getLast? with
        | none => []
        | some last =>
          [("Flight " ++ last.city ++ " → " ++ origin_city,
            roundToR 2 (_calculate_distance last.lat last.lon origin_lat origin_lon
              * 0.15))])
  let detailed_flights : List FlightDetail :=
    interFlightDetails itinerary
      ++ (match itinerary.getLast? with
          | none => []
          | some last =>
            [{ dep_city := last.city
               arr_city := origin_city
               distance_km := roundToR 1
                 (_calculate_distance last.lat last.lon origin_lat origin_lon)
               cost := roundToR 2
                 (_calculate_distance last.lat last.lon origin_lat origin_lon * 0.15) }])
  [("total_hotel", CostVal.num (roundToR 2 total_hotel)),
   ("total_flights", CostVal.num (roundToR 2 total_flights)),
   ("total_cost", CostVal.num (roundToR 2 (total_hotel + total_flights))),
   ("per_person", CostVal.num (roundToR 2 ((total_hotel + total_flights) / 2))),
   ("breakdown", CostVal.table city_costs),
   ("flights", CostVal.flightList detailed_flights)]

/-- Python dict subscript `d[key]`, `none` standing for `KeyError`. -/
def lookupKey : List (String × CostVal) → String → Option CostVal
  | [], _ => none
  | (k, v) :: rest, key => if k = key then some v else lookupKey rest key

/-- The failure modes of the budget-check line of `plan_trip`. -/
inductive PlanError
  | keyError (key : String)
  | typeError
  | budgetExceeded (max_budget grand_total : ℝ)

open Classical in
/-- The post-hoc budget check of `plan_trip` (lines 148-153):
`if max_budget and cost_breakdown["grand_total"] > max_budget: raise
ValueError(...)`.  Python truthiness makes `None` and `0.0` skip the check
entirely; the dict subscript raises `KeyError` when the key is absent. -/
noncomputable def plan_trip_budget_check (max_budget : Option ℝ)
    (cost_breakdown : List (String × CostVal)) : Except PlanError Unit :=
  match max_budget with
  | none => Except.ok ()
  | some b =>
    if b = 0 then Except.ok ()
    else
      match lookupKey cost_breakdown "grand_total" with
      | none => Except.error (PlanError.keyError "grand_total")
      | some (CostVal.num v) =>
        if b < v then Except.error (PlanError.budgetExceeded b v) else Except.ok ()
      | some _ => Except.error PlanError.typeError

/-- C1 (code bug): for EVERY itinerary and every nonzero budget, the
post-hoc budget check of `plan_trip` raises `KeyError("grand_total")`: the
cost dict built by `_calculate_trip_costs` stores the grand total under
"total_cost", never under "grand_total".  The plan is therefore neither
returned when the realized total is within budget nor rejected with the
infeasibility `ValueError` when it is not. -/
theorem plan_trip_budget_check_keyError (origin_city : String)
    (origin_lat origin_lon : ℚ) (itinerary : List ItineraryStop) (b : ℝ)
    (hb : b ≠ 0) :
    lookupKey (_calculate_trip_costs origin_city origin_lat origin_lon itinerary)
        "grand_total" = none
    ∧ plan_trip_budget_check (some b)
        (_calculate_trip_costs origin_city origin_lat origin_lon itinerary)
      = Except.error (PlanError.keyError "grand_total") := by
  have hkey : lookupKey (_calculate_trip_costs origin_city origin_lat origin_lon itinerary)
      "grand_total" = none := by
    simp [_calculate_trip_costs, lookupKey]
  refine ⟨hkey, ?_⟩
  simp only [plan_trip_budget_check, if_neg hb, hkey]

/-- C1 witness: a single-stop itinerary under a generous budget of 100000
still fails with the `KeyError`. -/
theorem plan_trip_budget_check_keyError_witness :
    plan_trip_budget_check (some 100000)
        (_calculate_trip_costs "london" (51 : ℚ) 0 [⟨"paris", 48, 2, 4, some 300⟩])
      = Except.error (PlanError.keyError "grand_total") :=
  (plan_trip_budget_check_keyError "london" 51 0 [⟨"paris", 48, 2, 4, some 300⟩]
    100000 (by norm_num)).2

end Trippai
